import Mathlib

/-!
Shallow embedding of the escucha dictation daemon (src/escucha/app.py):
device resolution, paste-method resolution, hotkey normalization, the
per-utterance paste cascades, and the DictationService event loop.
Strings are Lean strings; Python str.lower is modelled for ASCII
(the only characters the comparisons involve).
-/

namespace Escucha

/-- Decidable equality for Except, so witnesses can be checked by decide. -/
instance exceptDecEq {ε α : Type} [DecidableEq ε] [DecidableEq α] :
    DecidableEq (Except ε α) := fun a b =>
  match a, b with
  | Except.ok a, Except.ok b =>
    if h : a = b then isTrue (congrArg Except.ok h)
    else isFalse (fun hh => h (Except.ok.inj hh))
  | Except.error a, Except.error b =>
    if h : a = b then isTrue (congrArg Except.error h)
    else isFalse (fun hh => h (Except.error.inj hh))
  | Except.ok _, Except.error _ => isFalse (fun hh => Except.noConfusion hh)
  | Except.error _, Except.ok _ => isFalse (fun hh => Except.noConfusion hh)

/-- ASCII lower-casing of one character, as Python str.lower acts on ASCII. -/
def lowerChar (c : Char) : Char :=
  if 65 ≤ c.toNat ∧ c.toNat ≤ 90 then Char.ofNat (c.toNat + 32) else c

/-- Lower-case every character of a string (model of s.lower()). -/
def lowerStr (s : String) : List Char := s.data.map lowerChar

/-- Does the second list start with the first one? -/
def startsWithCL : List Char → List Char → Bool
  | [], _ => true
  | _ :: _, [] => false
  | a :: as, b :: bs => a == b && startsWithCL as bs

/-- Substring test: model of the Python `needle in hay` operator on str. -/
def hasSub (needle : List Char) : List Char → Bool
  | [] => needle.isEmpty
  | c :: cs => startsWithCL needle (c :: cs) || hasSub needle cs

/-- An enumerated input device: its reported name and the key codes it
declares in its EV_KEY capability list (dev.capabilities().get(EV_KEY, [])). -/
structure Device where
  name : String
  keyCaps : List Nat
  deriving DecidableEq, Repr

/-- Result of pick_keyboard_device: either the explicitly configured path is
opened, or one of the enumerated devices is chosen. -/
inductive PickedDevice where
  | byPath (path : String)
  | found (d : Device)
  deriving DecidableEq, Repr

/-- A device is skipped by auto-detection when its lower-cased name contains
mouse or touchpad (app.py lines 138-140). -/
def excludedDevice (d : Device) : Bool :=
  hasSub (String.data "mouse") (lowerStr d.name) ||
  hasSub (String.data "touchpad") (lowerStr d.name)

/-- The for-loop of pick_keyboard_device: skip excluded devices, return the
first remaining device whose capability list contains the key code. -/
def scanDevices (keyCode : Nat) : List Device → Option Device
  | [] => none
  | d :: rest =>
    if excludedDevice d then scanDevices keyCode rest
    else if keyCode ∈ d.keyCaps then some d
    else scanDevices keyCode rest

/-- pick_keyboard_device (app.py lines 132-146): explicit path is opened
verbatim; for the auto selector, scan for a supporting device, otherwise
fall back to devices[0], and raise only when the device list is empty. -/
def pick_keyboard_device (keyCode : Nat) (devicePath : String)
    (devices : List Device) : Except String PickedDevice :=
  if devicePath ≠ "auto" then .ok (.byPath devicePath)
  else
    match scanDevices keyCode devices with
    | some d => .ok (.found d)
    | none =>
      match devices with
      | d :: _ => .ok (.found d)
      | [] => .error "No input devices found"

/-- The three desktop-automation tools pick_paste_method knows. -/
inductive Tool where
  | ydotool
  | wtype
  | xdotool
  deriving DecidableEq, Repr

/-- Environment probed by pick_paste_method: the WAYLAND_DISPLAY and DISPLAY
markers and which-availability of each tool. -/
structure PasteEnv where
  wayland : Bool
  x11 : Bool
  has : Tool → Bool

/-- pick_paste_method (app.py lines 192-210): a known configured method is
used verbatim; anything else falls through to environment probing. -/
def pick_paste_method (env : PasteEnv) (preferred : String) :
    Except String String :=
  if preferred = "xdotool" ∨ preferred = "wtype" ∨ preferred = "ydotool" then
    .ok preferred
  else if env.wayland && env.has Tool.ydotool then .ok "ydotool"
  else if env.wayland && env.has Tool.wtype then .ok "wtype"
  else if env.x11 && env.has Tool.xdotool then .ok "xdotool"
  else if env.has Tool.ydotool then .ok "ydotool"
  else if env.has Tool.wtype then .ok "wtype"
  else if env.has Tool.xdotool then .ok "xdotool"
  else .error "No paste tool found (install ydotool, wtype, or xdotool)"

/-- resolve_paste_hotkey normalization: paste_hotkey.lower().replace(space, empty). -/
def normalizeHotkey (s : String) : String :=
  String.mk ((s.data.map lowerChar).filter (fun c => c.toNat ≠ 32))

/-- resolve_paste_hotkey (app.py lines 213-219); the local combo variable is
inlined. -/
def resolve_paste_hotkey (pasteHotkey : String) : String :=
  if ¬(normalizeHotkey pasteHotkey = "auto" ∨ normalizeHotkey pasteHotkey = "" ∨
      normalizeHotkey pasteHotkey = "ctrl+v" ∨
      normalizeHotkey pasteHotkey = "ctrl+shift+v")
  then "ctrl+v"
  else if normalizeHotkey pasteHotkey = "auto" ∨ normalizeHotkey pasteHotkey = ""
  then "ctrl+v"
  else normalizeHotkey pasteHotkey

/-- One external process invocation: its argv, what is fed on stdin, and the
YDOTOOL_SOCKET value in its environment when the code sets one. -/
structure Cmd where
  argv : List String
  stdinData : Option String := none
  envSocket : Option String := none
  deriving DecidableEq, Repr

/-- The pieces of the OS environment the ydotool socket resolution reads:
an existing YDOTOOL_SOCKET variable, existence of the two well-known socket
paths, and the uid used to build the per-user path. -/
structure SysEnv where
  ydotoolSocket : Option String
  runSockExists : Bool
  userSockExists : Bool
  uid : Nat
  deriving DecidableEq, Repr

/-- Socket resolution in the ydotool branch of paste_text (app.py lines
253-259): keep an explicit override, else the system-wide socket if it
exists, else the per-user socket if it exists, else nothing. -/
def resolveYdotoolSocket (s : SysEnv) : Option String :=
  match s.ydotoolSocket with
  | some v => some v
  | none =>
    if s.runSockExists then some "/run/ydotoold.sock"
    else if s.userSockExists then
      some (String.append "/run/user/"
        (String.append (toString s.uid) "/.ydotool_socket"))
    else none

/-- The world paste_text executes against: exit status of each invocation,
which-availability of wl-copy, and the socket-related environment. -/
structure PasteWorld where
  run : Cmd → Int
  hasWlCopy : Bool
  sys : SysEnv

/-- The xdotool branch of paste_text (app.py lines 233-234): one invocation
with check=False whose exit status is never read. -/
def pasteXdotool (text : String) : List Cmd × Except String Unit :=
  ([⟨["xdotool", "type", "--clearmodifiers", "--delay", "1", "--", text],
     none, none⟩], Except.ok ())

/-- The wtype branch of paste_text (app.py lines 235-251): direct type, then
stdin streaming, then wl-copy plus a ctrl+v key sequence, else an error. -/
def pasteWtype (w : PasteWorld) (text : String) :
    List Cmd × Except String Unit :=
  let c1 : Cmd := ⟨["wtype", "-d", "1", "--", text], none, none⟩
  if w.run c1 = 0 then ([c1], Except.ok ())
  else
    let c2 : Cmd := ⟨["wtype", "-"], some text, none⟩
    if w.run c2 = 0 then ([c1, c2], Except.ok ())
    else if w.hasWlCopy then
      let c3 : Cmd := ⟨["wl-copy"], some text, none⟩
      if w.run c3 = 0 then
        let c4 : Cmd := ⟨["wtype", "-M", "ctrl", "-k", "v", "-m", "ctrl"],
          none, none⟩
        if w.run c4 = 0 then ([c1, c2, c3, c4], Except.ok ())
        else ([c1, c2, c3, c4], Except.error "wtype failed to type or paste text")
      else ([c1, c2, c3], Except.error "wtype failed to type or paste text")
    else ([c1, c2], Except.error "wtype failed to type or paste text")

/-- The ydotool branch of paste_text (app.py lines 252-289): optionally
wl-copy plus a raw key sequence for the resolved hotkey, and in every
remaining case a direct type invocation whose failure raises. -/
def pasteYdotool (w : PasteWorld) (text pasteHotkey clipboardPaste : String)
    (keyDelayMs : Int) : List Cmd × Except String Unit :=
  let sock := resolveYdotoolSocket w.sys
  let typeCmd : Cmd :=
    ⟨["ydotool", "type", "-d", toString keyDelayMs, "--file", "-"],
     some text, sock⟩
  let typeStep : List Cmd → List Cmd × Except String Unit := fun pre =>
    if w.run typeCmd = 0 then (pre ++ [typeCmd], Except.ok ())
    else (pre ++ [typeCmd], Except.error "ydotool failed to type text")
  if String.mk (lowerStr clipboardPaste) ≠ "off" ∧ w.hasWlCopy = true then
    let copyCmd : Cmd := ⟨["wl-copy"], some text, none⟩
    if w.run copyCmd = 0 then
      let combo := resolve_paste_hotkey pasteHotkey
      let keys := if combo = "ctrl+shift+v"
        then ["29:1", "42:1", "47:1", "47:0", "42:0", "29:0"]
        else ["29:1", "47:1", "47:0", "29:0"]
      let pasteCmd : Cmd :=
        ⟨["ydotool", "key", "-d", toString keyDelayMs] ++ keys, none, sock⟩
      if w.run pasteCmd = 0 then ([copyCmd, pasteCmd], Except.ok ())
      else typeStep [copyCmd, pasteCmd]
    else typeStep [copyCmd]
  else typeStep []

/-- paste_text (app.py lines 222-291): empty text returns at once; otherwise
dispatch on the method string, unknown methods raising ValueError. Returns
the invocations performed and the outcome. -/
def paste_text (w : PasteWorld) (text method pasteHotkey clipboardPaste : String)
    (keyDelayMs clipDelayMs : Int) : List Cmd × Except String Unit :=
  if text = "" then ([], Except.ok ())
  else if method = "xdotool" then pasteXdotool text
  else if method = "wtype" then pasteWtype w text
  else if method = "ydotool" then
    pasteYdotool w text pasteHotkey clipboardPaste keyDelayMs
  else ([], Except.error (String.append "Unknown paste method: " method))

/-- EV_KEY of the Linux input subsystem. -/
def evKEY : Nat := 1

/-- One input event as read from the device: type, code, value. -/
structure Event where
  etype : Nat
  code : Nat
  value : Nat
  deriving DecidableEq, Repr

/-- Immutable context of a running DictationService: resolved key code and
paste method, paste settings, and oracles for the external world
(process exits and the transcription gateway keyed by wav path). -/
structure ServiceCtx where
  keyCode : Nat
  method : String
  pasteHotkey : String
  clipboardPaste : String
  keyDelayMs : Int
  clipDelayMs : Int
  world : PasteWorld
  transcribeRes : String → Except String String

/-- Observable state of DictationService.run: the recording flag and active
wav path, a counter feeding fresh temp names, the set of temp files on disk,
and the emitted status, text and error events, plus a count of recording
sessions ever started. -/
structure SvcState where
  recording : Bool
  wavPath : Option String
  counter : Nat
  files : List String
  statuses : List String
  texts : List String
  errors : List String
  sessionsStarted : Nat
  deriving DecidableEq, Repr

/-- Fresh temporary path for the n-th recording (tempfile NamedTemporaryFile
with the whisper-fn- prefix and .wav suffix). -/
def freshPath (n : Nat) : String :=
  String.append "whisper-fn-" (String.append (toString n) ".wav")

/-- The try/except body of the key-up branch (app.py lines 368-382):
transcribe, emit the text, paste; any exception from either call is caught
and reported on the error channel. A missing path stands for the
exception transcribe(None) would raise. -/
def utteranceScope (ctx : ServiceCtx) (s1 : SvcState) (wavPath : Option String) :
    SvcState :=
  match wavPath with
  | none =>
    { s1 with errors := s1.errors ++ ["Transcribe/paste error: missing file"] }
  | some wp =>
    match ctx.transcribeRes wp with
    | Except.error msg =>
      { s1 with errors :=
          s1.errors ++ [String.append "Transcribe/paste error: " msg] }
    | Except.ok text =>
      let s1t : SvcState := { s1 with texts := s1.texts ++ [text] }
      match (paste_text ctx.world text ctx.method ctx.pasteHotkey
          ctx.clipboardPaste ctx.keyDelayMs ctx.clipDelayMs).2 with
      | Except.ok _ => s1t
      | Except.error msg =>
        { s1t with errors :=
            s1t.errors ++ [String.append "Transcribe/paste error: " msg] }

/-- The body of the for-loop in DictationService.run (app.py lines 353-387):
filter by event type and key code, start a recording on value 1 while idle,
and on value 0 while recording run the transcribe/paste scope, then the
finally clause deleting the temp file, then return to idle with status
ready. -/
def handleEvent (ctx : ServiceCtx) (s : SvcState) (e : Event) : SvcState :=
  if e.etype ≠ evKEY then s
  else if e.code ≠ ctx.keyCode then s
  else if e.value = 1 ∧ s.recording = false then
    let path := freshPath s.counter
    { s with
      recording := true
      wavPath := some path
      counter := s.counter + 1
      files := path :: s.files
      statuses := s.statuses ++ ["recording"]
      sessionsStarted := s.sessionsStarted + 1 }
  else if e.value = 0 ∧ s.recording = true then
    let s1 : SvcState := { s with statuses := s.statuses ++ ["transcribing"] }
    let s2 : SvcState := utteranceScope ctx s1 s.wavPath
    let s3 : SvcState :=
      match s.wavPath with
      | some wp => { s2 with files := s2.files.filter (fun f => f ≠ wp) }
      | none => s2
    { s3 with recording := false, statuses := s3.statuses ++ ["ready"] }
  else s

/-- State at loop entry: idle, no session, status ready already emitted. -/
def initState : SvcState := ⟨false, none, 0, [], ["ready"], [], [], 0⟩

/-- The polling loop over a stream of decoded events. -/
def runEvents (ctx : ServiceCtx) (s : SvcState) : List Event → SvcState
  | [] => s
  | e :: rest => runEvents ctx (handleEvent ctx s e) rest

/-! Concrete fixtures used by counterexamples and witnesses. -/

/-- A pointing device whose name auto-detection should exclude. -/
def mouseDev : Device := ⟨"USB Optical Mouse", []⟩

/-- A keyboard that does not declare the target key code. -/
def kbdDev : Device := ⟨"AT Translated Set 2 keyboard", []⟩

/-- A Wayland session where every tool is installed. -/
def envAll : PasteEnv := ⟨true, false, fun _ => true⟩

/-- A world in which every external invocation exits with status 1. -/
def wFail : PasteWorld := ⟨fun _ => 1, true, ⟨none, false, false, 1000⟩⟩

/-- A context whose transcription gateway always fails. -/
def ctxErr : ServiceCtx :=
  ⟨464, "xdotool", "auto", "auto", 1, 75, wFail,
   fun _ => Except.error "model crashed"⟩

/-- A context whose gateway succeeds and whose xdotool paste succeeds. -/
def ctxOk : ServiceCtx :=
  ⟨464, "xdotool", "auto", "auto", 1, 75,
   ⟨fun _ => 0, true, ⟨none, false, false, 1000⟩⟩,
   fun _ => Except.ok "hello world"⟩

/-- A mid-recording state: one session active, its temp file on disk. -/
def sRec : SvcState :=
  ⟨true, some "whisper-fn-0.wav", 1, ["whisper-fn-0.wav"],
   ["ready", "recording"], [], [], 1⟩

/-- Key-down, key-up and auto-repeat events for key code 464. -/
def eDown : Event := ⟨1, 464, 1⟩

/-- Key-up event for key code 464. -/
def eUp : Event := ⟨1, 464, 0⟩

/-- Auto-repeat event (value 2) for key code 464. -/
def eRepeat : Event := ⟨1, 464, 2⟩

/-! Helper lemmas. -/

/-- The transcribe/paste scope touches only the text and error channels:
files, the recording flag, statuses, the wav path, the counter and the
session count all pass through unchanged. -/
theorem utteranceScope_preserves (ctx : ServiceCtx) (s1 : SvcState)
    (wp : Option String) :
    (utteranceScope ctx s1 wp).files = s1.files ∧
    (utteranceScope ctx s1 wp).recording = s1.recording ∧
    (utteranceScope ctx s1 wp).statuses = s1.statuses ∧
    (utteranceScope ctx s1 wp).wavPath = s1.wavPath ∧
    (utteranceScope ctx s1 wp).counter = s1.counter ∧
    (utteranceScope ctx s1 wp).sessionsStarted = s1.sessionsStarted := by
  cases wp with
  | none => simp [utteranceScope]
  | some p =>
    cases htr : ctx.transcribeRes p with
    | error msg => simp [utteranceScope, htr]
    | ok text =>
      cases hp : (paste_text ctx.world text ctx.method ctx.pasteHotkey
          ctx.clipboardPaste ctx.keyDelayMs ctx.clipDelayMs).2 with
      | error msg => simp [utteranceScope, htr, hp]
      | ok u => simp [utteranceScope, htr, hp]

/-- When the gateway fails, or the gateway succeeds and the paste cascade
fails, the scope reports exactly one new error. -/
theorem utteranceScope_errors_on_failure (ctx : ServiceCtx) (s1 : SvcState)
    (wp : String)
    (hfail : (∃ msg, ctx.transcribeRes wp = Except.error msg) ∨
      (∃ text, ctx.transcribeRes wp = Except.ok text ∧
        ∃ msg, (paste_text ctx.world text ctx.method ctx.pasteHotkey
          ctx.clipboardPaste ctx.keyDelayMs ctx.clipDelayMs).2 =
            Except.error msg)) :
    (utteranceScope ctx s1 (some wp)).errors.length = s1.errors.length + 1 := by
  rcases hfail with ⟨msg, hmsg⟩ | ⟨text, htext, msg, hmsg⟩
  · simp [utteranceScope, hmsg]
  · simp [utteranceScope, htext, hmsg]

end Escucha

namespace Escucha

/-- C8: hotkey resolution returns the shift variant exactly when the
lower-cased, space-stripped input is ctrl+shift+v, and ctrl+v for every
other input, including Auto, the empty string and CTRL+V. -/
theorem C8_hotkey_resolution (s : String) :
    (resolve_paste_hotkey s =
      if normalizeHotkey s = "ctrl+shift+v" then "ctrl+shift+v" else "ctrl+v") ∧
    resolve_paste_hotkey "auto" = "ctrl+v" ∧
    resolve_paste_hotkey "Auto" = "ctrl+v" ∧
    resolve_paste_hotkey "" = "ctrl+v" ∧
    resolve_paste_hotkey "CTRL+V" = "ctrl+v" ∧
    resolve_paste_hotkey "not-a-hotkey" = "ctrl+v" ∧
    resolve_paste_hotkey "Ctrl + Shift + V" = "ctrl+shift+v" := by
  refine ⟨?_, by decide, by decide, by decide, by decide, by decide, by decide⟩
  unfold resolve_paste_hotkey
  by_cases h : normalizeHotkey s = "ctrl+shift+v"
  · rw [h]; decide
  · rw [if_neg h]
    by_cases h2 : normalizeHotkey s = "auto"
    · rw [h2]; decide
    · by_cases h3 : normalizeHotkey s = ""
      · rw [h3]; decide
      · by_cases h4 : normalizeHotkey s = "ctrl+v"
        · rw [h4]; decide
        · simp [h, h2, h3, h4]

/-- C9: per-utterance paste with empty text performs zero external
invocations and succeeds, for every method and configuration. -/
theorem C9_empty_text_noop (w : PasteWorld)
    (method pasteHotkey clipboardPaste : String) (kd cd : Int) :
    paste_text w "" method pasteHotkey clipboardPaste kd cd =
      ([], Except.ok ()) := by
  simp [paste_text]

/-- C10: a key event whose value is neither 0 nor 1, such as an auto-repeat
event, leaves the service state completely unchanged. -/
theorem C10_repeat_ignored (ctx : ServiceCtx) (s : SvcState) (e : Event)
    (h0 : e.value ≠ 0) (h1 : e.value ≠ 1) :
    handleEvent ctx s e = s := by
  unfold handleEvent
  split_ifs with hA hB hC hD
  · rfl
  · rfl
  · exact absurd hC.1 h1
  · exact absurd hD.1 h0
  · rfl

/-- C10 witness: the auto-repeat event on the configured key changes
nothing in the initial state. -/
theorem C10_repeat_ignored_witness :
    handleEvent ctxOk initState eRepeat = initState :=
  C10_repeat_ignored ctxOk initState eRepeat (by decide) (by decide)

/-- C1 is false as stated: when no device declares the key, the fallback
returns the first enumerated device even though it is an excluded pointing
device, rather than the first non-excluded device. -/
theorem C1_counterexample :
    excludedDevice mouseDev = true ∧
    excludedDevice kbdDev = false ∧
    pick_keyboard_device 464 "auto" [mouseDev, kbdDev] =
      Except.ok (PickedDevice.found mouseDev) ∧
    pick_keyboard_device 464 "auto" [mouseDev, kbdDev] ≠
      Except.ok (PickedDevice.found kbdDev) := by decide

/-- C1 amended: auto-detection returns the first device that is neither a
mouse nor a touchpad and declares the key; if there is none, it falls back
to the first enumerated device, excluded or not; it fails exactly when the
enumeration is empty. -/
theorem C1_amended_auto_detection (keyCode : Nat) (devices : List Device) :
    pick_keyboard_device keyCode "auto" devices =
      match devices.find?
          (fun d => !excludedDevice d && decide (keyCode ∈ d.keyCaps)) with
      | some d => Except.ok (PickedDevice.found d)
      | none =>
        match devices with
        | d :: _ => Except.ok (PickedDevice.found d)
        | [] => Except.error "No input devices found" := by
  have hscan : ∀ ds : List Device, scanDevices keyCode ds =
      ds.find? (fun d => !excludedDevice d && decide (keyCode ∈ d.keyCaps)) := by
    intro ds
    induction ds with
    | nil => rfl
    | cons d rest ih =>
      by_cases hx : excludedDevice d = true
      · simp [scanDevices, hx, ih]
      · by_cases hc : keyCode ∈ d.keyCaps
        · simp [scanDevices, hx, hc]
        · simp [scanDevices, hx, hc, ih]
  simp only [pick_keyboard_device, hscan devices]
  simp

/-- C7: with no explicit known method configured, resolution follows the
priority order Wayland with ydotool, Wayland with wtype, X11 with xdotool,
then the fixed fallback order ydotool, wtype, xdotool, and fails exactly
when none of the three tools is available. -/
theorem C7_auto_method_resolution (env : PasteEnv) (p : String)
    (h1 : p ≠ "xdotool") (h2 : p ≠ "wtype") (h3 : p ≠ "ydotool") :
    (env.wayland = true → env.has Tool.ydotool = true →
      pick_paste_method env p = Except.ok "ydotool") ∧
    (env.wayland = true → env.has Tool.ydotool = false →
      env.has Tool.wtype = true →
      pick_paste_method env p = Except.ok "wtype") ∧
    ((env.wayland = true → env.has Tool.ydotool = false ∧
        env.has Tool.wtype = false) →
      env.x11 = true → env.has Tool.xdotool = true →
      pick_paste_method env p = Except.ok "xdotool") ∧
    ((env.wayland = true → env.has Tool.ydotool = false ∧
        env.has Tool.wtype = false) →
      (env.x11 = true → env.has Tool.xdotool = false) →
      pick_paste_method env p =
        (if env.has Tool.ydotool then Except.ok "ydotool"
         else if env.has Tool.wtype then Except.ok "wtype"
         else if env.has Tool.xdotool then Except.ok "xdotool"
         else Except.error
           "No paste tool found (install ydotool, wtype, or xdotool)")) ∧
    ((∃ msg, pick_paste_method env p = Except.error msg) ↔
      env.has Tool.ydotool = false ∧ env.has Tool.wtype = false ∧
        env.has Tool.xdotool = false) := by
  have hnp : ¬(p = "xdotool" ∨ p = "wtype" ∨ p = "ydotool") := by
    simp [h1, h2, h3]
  unfold pick_paste_method
  rw [if_neg hnp]
  cases hw : env.wayland <;> cases hy : env.has Tool.ydotool <;>
    cases htw : env.has Tool.wtype <;> cases hx : env.x11 <;>
      cases hd : env.has Tool.xdotool <;> simp_all

/-- C7 witness: in a Wayland session with every tool installed and the auto
sentinel configured, the clipboard-capable tool ydotool is selected. -/
theorem C7_auto_method_resolution_witness :
    pick_paste_method envAll "auto" = Except.ok "ydotool" :=
  (C7_auto_method_resolution envAll "auto" (by decide) (by decide)
    (by decide)).1 rfl rfl

/-- C2 is false as stated: an unrecognized configured method does not raise
at resolution time; with a Wayland session and tools available it resolves
to ydotool like the auto sentinel. -/
theorem C2_counterexample :
    pick_paste_method envAll "definitely-not-a-tool" = Except.ok "ydotool" := by
  decide

/-- A paste outcome is the unknown-method error when its message carries the
Unknown paste method prefix. -/
def isUnknownMethodError : Except String Unit → Bool
  | Except.error msg =>
    startsWithCL (String.data "Unknown paste method: ") msg.data
  | Except.ok _ => false

/-- The wtype cascade ends in success or in its own specific error. -/
theorem pasteWtype_outcome (w : PasteWorld) (text : String) :
    (pasteWtype w text).2 = Except.ok () ∨
    (pasteWtype w text).2 =
      Except.error "wtype failed to type or paste text" := by
  simp only [pasteWtype]
  split_ifs <;> simp

/-- The ydotool cascade ends in success or in its own specific error. -/
theorem pasteYdotool_outcome (w : PasteWorld)
    (text pasteHotkey clipboardPaste : String) (kd : Int) :
    (pasteYdotool w text pasteHotkey clipboardPaste kd).2 = Except.ok () ∨
    (pasteYdotool w text pasteHotkey clipboardPaste kd).2 =
      Except.error "ydotool failed to type text" := by
  simp only [pasteYdotool]
  split_ifs <;> simp

/-- A successful resolution only ever returns one of the three known
tools. -/
theorem pick_ok_known (env : PasteEnv) (p m : String)
    (hok : pick_paste_method env p = Except.ok m) :
    m = "xdotool" ∨ m = "wtype" ∨ m = "ydotool" := by
  unfold pick_paste_method at hok
  by_cases hp : p = "xdotool" ∨ p = "wtype" ∨ p = "ydotool"
  · rw [if_pos hp] at hok
    have hpm : p = m := Except.ok.inj hok
    exact hpm ▸ hp
  · rw [if_neg hp] at hok
    split_ifs at hok <;>
      first
        | (exact Or.inl (Except.ok.inj hok).symm)
        | (exact Or.inr (Or.inl (Except.ok.inj hok).symm))
        | (exact Or.inr (Or.inr (Except.ok.inj hok).symm))
        | (cases hok)

/-- C2 amended: a configured method outside the known set is treated like
the auto sentinel at resolution time, resolution only returns known tools,
and per-utterance paste execution with a resolved method never produces the
unknown-method error. -/
theorem C2_amended_unknown_method (env : PasteEnv) (p m : String)
    (w : PasteWorld) (text pasteHotkey clipboardPaste : String) (kd cd : Int)
    (hok : pick_paste_method env p = Except.ok m) :
    (m = "xdotool" ∨ m = "wtype" ∨ m = "ydotool") ∧
    (p = "xdotool" ∨ p = "wtype" ∨ p = "ydotool" ∨
      pick_paste_method env p = pick_paste_method env "auto") ∧
    isUnknownMethodError
      (paste_text w text m pasteHotkey clipboardPaste kd cd).2 = false := by
  have hm := pick_ok_known env p m hok
  have hsame : p = "xdotool" ∨ p = "wtype" ∨ p = "ydotool" ∨
      pick_paste_method env p = pick_paste_method env "auto" := by
    by_cases hp : p = "xdotool" ∨ p = "wtype" ∨ p = "ydotool"
    · tauto
    · refine Or.inr (Or.inr (Or.inr ?_))
      have hauto : ¬("auto" = "xdotool" ∨ "auto" = "wtype" ∨
          "auto" = "ydotool") := by decide
      unfold pick_paste_method
      rw [if_neg hp, if_neg hauto]
  refine ⟨hm, hsame, ?_⟩
  by_cases htext : text = ""
  · simp [paste_text, htext, isUnknownMethodError]
  · rcases hm with rfl | rfl | rfl
    · simp [paste_text, htext, pasteXdotool, isUnknownMethodError]
    · rcases pasteWtype_outcome w text with hres | hres <;>
        simp [paste_text, htext, isUnknownMethodError, hres] <;> decide
    · rcases pasteYdotool_outcome w text pasteHotkey clipboardPaste kd with
        hres | hres <;>
        simp [paste_text, htext, isUnknownMethodError, hres] <;> decide

/-- C2 amended witness: an unknown configured method resolves like auto in a
Wayland session with all tools, to ydotool, and a ydotool paste in a world
where everything fails reports the ydotool error, never the unknown-method
error. -/
theorem C2_amended_unknown_method_witness :
    ("ydotool" = "xdotool" ∨ "ydotool" = "wtype" ∨ "ydotool" = "ydotool") ∧
    ("definitely-not-a-tool" = "xdotool" ∨
      "definitely-not-a-tool" = "wtype" ∨
      "definitely-not-a-tool" = "ydotool" ∨
      pick_paste_method envAll "definitely-not-a-tool" =
        pick_paste_method envAll "auto") ∧
    isUnknownMethodError
      (paste_text wFail "hi" "ydotool" "auto" "auto" 1 75).2 = false :=
  C2_amended_unknown_method envAll "definitely-not-a-tool" "ydotool"
    wFail "hi" "auto" "auto" 1 75 (by decide)

/-- C3 is false as stated: with the xdotool invocation exiting with status
1, per-utterance execution still returns success and raises nothing. -/
theorem C3_counterexample :
    wFail.run ⟨["xdotool", "type", "--clearmodifiers", "--delay", "1", "--",
      "hello"], none, none⟩ = 1 ∧
    paste_text wFail "hello" "xdotool" "auto" "auto" 1 75 =
      ([⟨["xdotool", "type", "--clearmodifiers", "--delay", "1", "--",
        "hello"], none, none⟩], Except.ok ()) := by
  decide

/-- C3 amended: the X11 method performs a single type invocation with
modifier keys cleared and no further fallback, and its exit status is
ignored: the per-utterance call succeeds whatever the status, raising no
error. -/
theorem C3_amended_xdotool_ignores_exit (w : PasteWorld)
    (text pasteHotkey clipboardPaste : String) (kd cd : Int)
    (h : text ≠ "") :
    paste_text w text "xdotool" pasteHotkey clipboardPaste kd cd =
      ([⟨["xdotool", "type", "--clearmodifiers", "--delay", "1", "--", text],
        none, none⟩], Except.ok ()) := by
  simp [paste_text, pasteXdotool, h]

/-- C3 amended witness: in the all-failing world the xdotool method still
reports success after its single invocation. -/
theorem C3_amended_xdotool_ignores_exit_witness :
    paste_text wFail "hello" "xdotool" "auto" "auto" 1 75 =
      ([⟨["xdotool", "type", "--clearmodifiers", "--delay", "1", "--",
        "hello"], none, none⟩], Except.ok ()) :=
  C3_amended_xdotool_ignores_exit wFail "hello" "auto" "auto" 1 75
    (by decide)

/-- An event that fails any of the loop guards leaves the state unchanged:
wrong type, wrong code, or a value/flag combination matching neither the
start branch nor the stop branch. -/
theorem handleEvent_noop (ctx : ServiceCtx) (s : SvcState) (e : Event)
    (h : e.etype ≠ evKEY ∨ e.code ≠ ctx.keyCode ∨
      (¬(e.value = 1 ∧ s.recording = false) ∧
       ¬(e.value = 0 ∧ s.recording = true))) :
    handleEvent ctx s e = s := by
  unfold handleEvent
  split_ifs with hA hB hC hD
  · rfl
  · rfl
  · rcases h with h | h | h
    · exact absurd h hA
    · exact absurd h hB
    · exact absurd hC h.1
  · rcases h with h | h | h
    · exact absurd h hA
    · exact absurd h hB
    · exact absurd hD h.2
  · rfl

/-- The key-down branch: a matching press while idle starts one session on
a fresh temporary path and emits status recording. -/
theorem handleEvent_keydown (ctx : ServiceCtx) (s : SvcState) (e : Event)
    (ht : e.etype = evKEY) (hc : e.code = ctx.keyCode) (hv : e.value = 1)
    (hrec : s.recording = false) :
    handleEvent ctx s e = { s with
      recording := true
      wavPath := some (freshPath s.counter)
      counter := s.counter + 1
      files := freshPath s.counter :: s.files
      statuses := s.statuses ++ ["recording"]
      sessionsStarted := s.sessionsStarted + 1 } := by
  have h1 : ¬(e.etype ≠ evKEY) := by simp [ht]
  have h2 : ¬(e.code ≠ ctx.keyCode) := by simp [hc]
  have h3 : e.value = 1 ∧ s.recording = false := ⟨hv, hrec⟩
  unfold handleEvent
  rw [if_neg h1, if_neg h2, if_pos h3]

/-- The key-up branch: a matching release while recording runs the
transcribe/paste scope, then the finally clause deleting the temp file,
then returns to idle and emits status ready. -/
theorem handleEvent_keyup (ctx : ServiceCtx) (s : SvcState) (e : Event)
    (ht : e.etype = evKEY) (hc : e.code = ctx.keyCode) (hv : e.value = 0)
    (hrec : s.recording = true) :
    handleEvent ctx s e =
      (let s2 : SvcState := utteranceScope ctx
        { s with statuses := s.statuses ++ ["transcribing"] } s.wavPath
       let s3 : SvcState := match s.wavPath with
         | some wp => { s2 with files := s2.files.filter (fun f => f ≠ wp) }
         | none => s2
       { s3 with recording := false, statuses := s3.statuses ++ ["ready"] }) := by
  have h1 : ¬(e.etype ≠ evKEY) := by simp [ht]
  have h2 : ¬(e.code ≠ ctx.keyCode) := by simp [hc]
  have h3 : ¬(e.value = 1 ∧ s.recording = false) := by simp [hv]
  have h4 : e.value = 0 ∧ s.recording = true := ⟨hv, hrec⟩
  unfold handleEvent
  rw [if_neg h1, if_neg h2, if_neg h3, if_pos h4]

/-- The key-up branch never changes the session count. -/
theorem handleEvent_keyup_sessions (ctx : ServiceCtx) (s : SvcState)
    (e : Event)
    (ht : e.etype = evKEY) (hc : e.code = ctx.keyCode) (hv : e.value = 0)
    (hrec : s.recording = true) :
    (handleEvent ctx s e).sessionsStarted = s.sessionsStarted := by
  obtain ⟨-, -, -, -, -, hsess⟩ := utteranceScope_preserves ctx
    { s with statuses := s.statuses ++ ["transcribing"] } s.wavPath
  rw [handleEvent_keyup ctx s e ht hc hv hrec]
  cases hw : s.wavPath with
  | none => rw [hw] at hsess; simp [hw, hsess]
  | some wp => rw [hw] at hsess; simp [hw, hsess]

/-- The session count after one event: incremented exactly by a matching
key-down while idle, otherwise unchanged. -/
theorem handleEvent_sessions (ctx : ServiceCtx) (s : SvcState) (e : Event) :
    (handleEvent ctx s e).sessionsStarted =
      (if e.etype = evKEY ∧ e.code = ctx.keyCode ∧ e.value = 1 ∧
          s.recording = false
       then s.sessionsStarted + 1 else s.sessionsStarted) := by
  by_cases ht : e.etype = evKEY
  · by_cases hc : e.code = ctx.keyCode
    · by_cases hv1 : e.value = 1
      · by_cases hrec : s.recording = false
        · rw [handleEvent_keydown ctx s e ht hc hv1 hrec]
          simp [ht, hc, hv1, hrec]
        · rw [handleEvent_noop ctx s e (Or.inr (Or.inr
            ⟨fun hh => hrec hh.2, fun hh => by rw [hv1] at hh; cases hh.1⟩))]
          simp [hrec]
      · by_cases hv0 : e.value = 0
        · by_cases hrec : s.recording = true
          · rw [handleEvent_keyup_sessions ctx s e ht hc hv0 hrec]
            simp [hv1]
          · rw [handleEvent_noop ctx s e (Or.inr (Or.inr
              ⟨fun hh => hv1 hh.1, fun hh => hrec hh.2⟩))]
            simp [hv1]
        · rw [handleEvent_noop ctx s e (Or.inr (Or.inr
            ⟨fun hh => hv1 hh.1, fun hh => hv0 hh.1⟩))]
          simp [hv1]
    · rw [handleEvent_noop ctx s e (Or.inr (Or.inl hc))]
      simp [hc]
  · rw [handleEvent_noop ctx s e (Or.inl ht)]
    simp [ht]

/-- C4: after the key-up of an utterance is handled, the utterance's
temporary file no longer exists, whatever the outcomes of the transcription
and paste calls, and the service is back to not recording. -/
theorem C4_temp_file_cleanup (ctx : ServiceCtx) (s : SvcState) (e : Event)
    (wp : String)
    (hrec : s.recording = true) (hwav : s.wavPath = some wp)
    (ht : e.etype = evKEY) (hc : e.code = ctx.keyCode) (hv : e.value = 0) :
    wp ∉ (handleEvent ctx s e).files ∧
    (handleEvent ctx s e).recording = false := by
  rw [handleEvent_keyup ctx s e ht hc hv hrec, hwav]
  simp [List.mem_filter]

/-- C4 witness: with a failing gateway, the concrete temp file of the
active session is gone after key-up. -/
theorem C4_temp_file_cleanup_witness :
    "whisper-fn-0.wav" ∉ (handleEvent ctxErr sRec eUp).files ∧
    (handleEvent ctxErr sRec eUp).recording = false :=
  C4_temp_file_cleanup ctxErr sRec eUp "whisper-fn-0.wav" rfl rfl rfl rfl rfl

/-- C5: when transcription fails, or transcription succeeds and the paste
cascade fails, the key-up handler reports exactly one error, returns the
service to idle with statuses transcribing then ready, and the loop
continues with the remaining events. -/
theorem C5_utterance_failure_recovery (ctx : ServiceCtx) (s : SvcState)
    (e : Event) (wp : String) (rest : List Event)
    (hrec : s.recording = true) (hwav : s.wavPath = some wp)
    (ht : e.etype = evKEY) (hc : e.code = ctx.keyCode) (hv : e.value = 0)
    (hfail : (∃ msg, ctx.transcribeRes wp = Except.error msg) ∨
      (∃ text, ctx.transcribeRes wp = Except.ok text ∧
        ∃ msg, (paste_text ctx.world text ctx.method ctx.pasteHotkey
          ctx.clipboardPaste ctx.keyDelayMs ctx.clipDelayMs).2 =
            Except.error msg)) :
    (handleEvent ctx s e).errors.length = s.errors.length + 1 ∧
    (handleEvent ctx s e).recording = false ∧
    (handleEvent ctx s e).statuses = s.statuses ++ ["transcribing", "ready"] ∧
    runEvents ctx s (e :: rest) = runEvents ctx (handleEvent ctx s e) rest := by
  obtain ⟨-, -, hstatU, -, -, -⟩ := utteranceScope_preserves ctx
    { s with statuses := s.statuses ++ ["transcribing"] } s.wavPath
  have herr := utteranceScope_errors_on_failure ctx
    { s with statuses := s.statuses ++ ["transcribing"] } wp hfail
  have hloop : runEvents ctx s (e :: rest) =
      runEvents ctx (handleEvent ctx s e) rest := rfl
  have hhand := handleEvent_keyup ctx s e ht hc hv hrec
  rw [hwav] at hstatU herr hhand
  refine ⟨?_, ?_, ?_, hloop⟩ <;> rw [hhand]
  · exact herr
  · simp [hstatU]

/-- C5 witness: a failing gateway on the active session yields one error,
a return to idle, the transcribing/ready status pair, and a continuing
loop. -/
theorem C5_utterance_failure_recovery_witness :
    (handleEvent ctxErr sRec eUp).errors.length = sRec.errors.length + 1 ∧
    (handleEvent ctxErr sRec eUp).recording = false ∧
    (handleEvent ctxErr sRec eUp).statuses =
      sRec.statuses ++ ["transcribing", "ready"] ∧
    runEvents ctxErr sRec [eUp] =
      runEvents ctxErr (handleEvent ctxErr sRec eUp) [] :=
  C5_utterance_failure_recovery ctxErr sRec eUp "whisper-fn-0.wav" []
    rfl rfl rfl rfl rfl (Or.inl ⟨"model crashed", rfl⟩)

/-- C6: the session count grows exactly on a matching key-down while idle,
a key-down while a session is active is a complete no-op, and the count
never grows by more than one per event. -/
theorem C6_single_session (ctx : ServiceCtx) (s : SvcState) (e : Event) :
    ((handleEvent ctx s e).sessionsStarted = s.sessionsStarted + 1 ↔
      e.etype = evKEY ∧ e.code = ctx.keyCode ∧ e.value = 1 ∧
        s.recording = false) ∧
    handleEvent ctx { s with recording := true } { e with value := 1 } =
      { s with recording := true } ∧
    ((handleEvent ctx s e).sessionsStarted = s.sessionsStarted ∨
      (handleEvent ctx s e).sessionsStarted = s.sessionsStarted + 1) := by
  refine ⟨?_, ?_, ?_⟩
  · rw [handleEvent_sessions]
    by_cases hcond : e.etype = evKEY ∧ e.code = ctx.keyCode ∧
        e.value = 1 ∧ s.recording = false
    · rw [if_pos hcond]
      simp [hcond]
    · rw [if_neg hcond]
      constructor
      · intro hcontra
        exact absurd hcontra (by omega)
      · intro hcontra
        exact absurd hcontra hcond
  · exact handleEvent_noop ctx { s with recording := true }
      { e with value := 1 } (Or.inr (Or.inr
        ⟨(fun hh => by cases hh.2), (fun hh => by cases hh.1)⟩))
  · rw [handleEvent_sessions]
    split_ifs
    · right; rfl
    · left; rfl

/-- C6 witness: a key-down arriving while recording leaves the state, and
hence the set of sessions, untouched. -/
theorem C6_single_session_witness :
    handleEvent ctxOk { initState with recording := true }
      { eDown with value := 1 } = { initState with recording := true } :=
  (C6_single_session ctxOk initState eDown).2.1

end Escucha
